import Mathlib

set_option maxRecDepth 10000

/-!
Verification of the swap-execution safety pipeline of the crypto-wallet-tracker
repository (`swap-executor.js`, class `SwapExecutor`).

The executor is embedded shallowly.  Amounts that the source carries as decimal
strings (and the configured percentages) are modelled as exact decimal numbers
`Dec` — an integer mantissa with a base-10 exponent, the value being
`num / 10 ^ exp` — which represents every decimal string exactly; on-chain
integer quantities (wei, raw token units) are `Int`.  Every external
collaborator call (`ethers` provider / contract calls) is recorded in an
explicit trace while its responses are drawn from an `Env` record standing for
the mocked RPC state.  The JavaScript `throw`/`catch` control flow of
`executeSwap` is modelled by the explicit error paths: every thrown error is
routed to the single catch block of `executeSwap` (source lines 413-422), which
increments `totalSwapsFailed` and produces the failure `ExecutionResult`.
-/

namespace CryptoWalletTracker

/-- An exact decimal number: the value `num / 10 ^ exp`.  This captures every
decimal string of the source exactly (`"0.01"` is `⟨1, 2⟩`, `"150"` is
`⟨150, 0⟩`).  The source performs its decimal arithmetic with JavaScript
double-precision floats; the embedding uses the exact decimal values (the
divergence is confined to floating-point rounding, which is out of scope of
the embedding). -/
structure Dec where
  num : ℤ
  exp : ℕ
  deriving DecidableEq, Repr

/-- The rational value of a decimal number, used in theorem statements. -/
def Dec.toRat (d : Dec) : ℚ :=
  (d.num : ℚ) / 10 ^ d.exp

/-- Exact product of decimal numbers. -/
def Dec.mul (a b : Dec) : Dec :=
  ⟨a.num * b.num, a.exp + b.exp⟩

/-- Exact difference of decimal numbers (aligning the exponents). -/
def Dec.sub (a b : Dec) : Dec :=
  ⟨a.num * 10 ^ (max a.exp b.exp - a.exp) - b.num * 10 ^ (max a.exp b.exp - b.exp),
   max a.exp b.exp⟩

/-- Exact sum of decimal numbers (aligning the exponents). -/
def Dec.add (a b : Dec) : Dec :=
  ⟨a.num * 10 ^ (max a.exp b.exp - a.exp) + b.num * 10 ^ (max a.exp b.exp - b.exp),
   max a.exp b.exp⟩

/-- Division by `10 ^ k` (exact). -/
def Dec.divPow10 (a : Dec) (k : ℕ) : Dec :=
  ⟨a.num, a.exp + k⟩

/-- Uniswap V3 router contract address constant (source line 47). -/
def UNISWAP_V3_ROUTER_ADDRESS : String := "0xE592427A0AEce92De3Edee1F18E0157C05861564"

/-- The WETH entry of `TOKEN_ADDRESSES` (source line 79). -/
def WETH_ADDRESS : String := "0xC02aaA39b223FE8D0A0e5C4F27eAD9083C756Cc2"

/-- The UNI entry of `TOKEN_ADDRESSES` (source line 83); an all-lowercase
hex address, accepted verbatim by `ethers.isAddress`. -/
def UNI_ADDRESS : String := "0x1f9840a85d5af5bf1d1762f925bdaddc4201f984"

/-- The SHIB entry of `TOKEN_ADDRESSES` (source line 82). -/
def SHIB_ADDRESS : String := "0x95aD61b0a150d79219dCF64E1E6Cc01f0B64C4cE"

/-- Hexadecimal digit test for address syntax. -/
def isHexDigitChar (c : Char) : Bool :=
  c.isDigit || (('a' ≤ c && c ≤ 'f') || ('A' ≤ c && c ≤ 'F'))

/-- Models `ethers.isAddress`: a `0x`-prefixed string of 40 hexadecimal digits.
(The library additionally validates the EIP-55 checksum of mixed-case inputs;
every address appearing in the theorems below is either all-lowercase or a
correctly checksummed constant taken from the source, so on all inputs used
here the library accepts exactly the strings this predicate accepts.) -/
def isAddress (s : String) : Bool :=
  match s.data with
  | '0' :: 'x' :: rest => rest.length == 40 && rest.all isHexDigitChar
  | _ => false

/-- Models `ethers.parseUnits(value, decimals)` (and `parseEther` for
`decimals = 18`) on the decimal value: succeeds with the exactly scaled
integer when `value * 10 ^ decimals` is an integer, and fails (the library
throws) otherwise. -/
def parseUnits (d : Dec) (decimals : Nat) : Option ℤ :=
  if d.exp ≤ decimals then some (d.num * 10 ^ (decimals - d.exp))
  else if d.num % 10 ^ (d.exp - decimals) == 0 then some (d.num / 10 ^ (d.exp - decimals))
  else none

/-- `ethers` ABI encoding rejects values outside the `uint256` range
(`encodeFunctionData` throws a value-out-of-bounds error). -/
def uint256InBounds (z : ℤ) : Bool :=
  decide (0 ≤ z) && decide (z < 2 ^ 256)

/-- The distinct error conditions thrown inside `executeSwap` and its helper
stages; each corresponds to one `throw` site (or one library throw) in the
source and is routed to the catch block at lines 413-422. -/
inductive SwapError where
  /-- line 287: `Swap executor not enabled or configured properly`. -/
  | notEnabled
  /-- line 292: `Emergency stop activated - all trading suspended`. -/
  | emergencyStopActive
  /-- line 435: `Missing required parameters: tokenIn, tokenOut, amountIn`. -/
  | missingParameters
  /-- line 440: `Invalid tokenIn address`. -/
  | invalidTokenIn
  /-- line 444: `Invalid tokenOut address`. -/
  | invalidTokenOut
  /-- line 449: `Cannot swap token to itself`. -/
  | sameTokenSwap
  /-- line 459: `Invalid amount format` (also covers the re-thrown
  `Amount must be greater than 0`, whose throw at line 456 is caught by the
  surrounding try at line 453 and rewrapped). -/
  | invalidAmount
  /-- line 478: `Insufficient ETH balance`. -/
  | insufficientEthBalance
  /-- line 491: `Insufficient token balance`. -/
  | insufficientTokenBalance
  /-- line 500: `Insufficient token allowance`. -/
  | insufficientAllowance
  /-- library throw from `ethers.parseUnits`/`parseEther` on a value that is
  not an integer after scaling by the asset's decimals (lines 475, 488,
  554-555). -/
  | unitsParseFailure
  /-- library throw from `encodeFunctionData` when a `uint256` parameter is out
  of bounds (line 560). -/
  | encodeOutOfBounds
  /-- line 360: `Swap would fail: ...` (gas estimation reverted). -/
  | simulationFailed
  /-- lines 371-377: the dry-run return object reads `simulationResult` and
  `estimatedCostETH`, both `const`-declared inside the inner try block of
  lines 346-361 and hence out of scope at the return site; evaluating the
  return expression raises `ReferenceError: simulationResult is not defined`,
  which the outer catch converts into a failure result. -/
  | dryRunReturnOutOfScope
  /-- line 385: `Real trading is disabled.` -/
  | realTradingDisabled
  /-- `wallet.sendTransaction` rejected (line 392). -/
  | sendFailed
  /-- `txResponse.wait()` rejected (line 396). -/
  | confirmationFailed
  deriving DecidableEq, Repr

/-- External collaborator calls issued by the pipeline, in issue order. -/
inductive RpcCall where
  /-- `provider.getBalance(wallet)` (line 474). -/
  | getBalance
  /-- `tokenContract.balanceOf(wallet)` (line 486). -/
  | balanceOf (token : String)
  /-- `tokenContract.decimals()` (line 487). -/
  | getDecimals (token : String)
  /-- `tokenContract.allowance(wallet, router)` (line 495). -/
  | allowance (token : String)
  /-- `wallet.estimateGas(transaction)` (line 348): the pre-flight simulation. -/
  | estimateGas
  /-- `provider.getFeeData()` (line 352). -/
  | getFeeData
  /-- `wallet.sendTransaction(transaction)` (line 392): the broadcast. -/
  | sendTransaction
  /-- `txResponse.wait()` (line 396). -/
  | waitForReceipt
  deriving DecidableEq, Repr

/-- The mocked external world: responses of the RPC provider, token contracts
and signer consumed by one `executeSwap` call. -/
structure Env where
  /-- wei balance returned by `provider.getBalance`. -/
  ethBalanceWei : ℤ
  /-- raw token units returned by `balanceOf`, per token address. -/
  tokenBalanceRaw : String → ℤ
  /-- decimals returned by the token contract, per token address. -/
  tokenDecimals : String → Nat
  /-- raw allowance towards the router returned by `allowance`. -/
  allowanceRaw : String → ℤ
  /-- `estimateGas` result; `none` means the estimation reverts. -/
  gasEstimate : Option Nat
  /-- `getFeeData().gasPrice` in wei. -/
  gasPriceWei : ℤ
  /-- `wallet.getAddress()`. -/
  walletAddress : String
  /-- `Math.floor(Date.now() / 1000)` at the call. -/
  nowSeconds : Nat
  /-- whether `sendTransaction` resolves. -/
  sendOk : Bool
  /-- whether `txResponse.wait()` resolves. -/
  confirmOk : Bool
  /-- `txResponse.hash`. -/
  txHash : String
  /-- `receipt.blockNumber`. -/
  blockNumber : Nat
  /-- `receipt.gasUsed`. -/
  gasUsed : Nat
  /-- `receipt.effectiveGasPrice` in wei. -/
  effectiveGasPriceWei : ℤ

/-- The caller-supplied swap request (`swapParams`, lines 266-273).  Decimal
string fields are carried as their exact decimal values; `none` models an
absent (JavaScript `undefined`) field. -/
structure SwapParams where
  tokenIn : Option String
  tokenOut : Option String
  /-- the decimal value of the `amountIn` string. -/
  amountIn : Option Dec
  slippagePercent : Option Dec
  dryRun : Option Bool
  reason : Option String

/-- `this.config` (constructor lines 120-139). -/
structure SwapConfig where
  maxSlippagePercent : Dec
  maxTransactionValueETH : Dec
  maxGasPriceGwei : Nat
  gasLimitMultiplier : Dec
  transactionDeadlineMinutes : Nat
  enableRealTrading : Bool
  emergencyStop : Bool
  deriving DecidableEq, Repr

/-- `this.stats` (constructor lines 144-152).  `totalVolumeETH` is declared in
the source and never written afterwards. -/
structure SwapStats where
  totalSwapsRequested : Nat
  totalSwapsExecuted : Nat
  totalSwapsFailed : Nat
  totalVolumeETH : Dec
  totalGasSpentETH : Dec
  lastSwapTime : Option Nat
  deriving DecidableEq, Repr

/-- The mutable fields of a `SwapExecutor` instance touched by the pipeline. -/
structure SwapExecutorState where
  isEnabled : Bool
  config : SwapConfig
  stats : SwapStats
  deriving DecidableEq, Repr

/-- `this.config` defaults when no environment overrides are present
(constructor lines 120-139): slippage `0.5`%, max transaction value `0.1` ETH,
gas-limit multiplier `1.2`. -/
def defaultConfig : SwapConfig where
  maxSlippagePercent := ⟨5, 1⟩
  maxTransactionValueETH := ⟨1, 1⟩
  maxGasPriceGwei := 100
  gasLimitMultiplier := ⟨12, 1⟩
  transactionDeadlineMinutes := 10
  enableRealTrading := false
  emergencyStop := false

/-- `this.stats` as initialized by the constructor (lines 144-152). -/
def initialStats : SwapStats where
  totalSwapsRequested := 0
  totalSwapsExecuted := 0
  totalSwapsFailed := 0
  totalVolumeETH := ⟨0, 0⟩
  totalGasSpentETH := ⟨0, 0⟩
  lastSwapTime := none

/-- A freshly constructed executor: the constructor always starts with
`emergencyStop: false` and zeroed statistics; `enabled` captures whether a
well-formed private key was configured and the provider initialized. -/
def freshExecutor (cfg : SwapConfig) (enabled : Bool) : SwapExecutorState where
  isEnabled := enabled
  config := { cfg with emergencyStop := false }
  stats := initialStats

/-- Result of `calculateSwapDetails` (lines 526-534). -/
structure SwapDetails where
  tokenInAddress : String
  tokenOutAddress : String
  amountIn : Dec
  estimatedOutput : Dec
  minOutputAfterSlippage : Dec
  slippagePercent : Dec
  fee : Nat
  deriving DecidableEq, Repr

/-- The transaction object built by `buildSwapTransaction` (lines 548-566);
the ABI-encoded `data` is represented by the encoded parameter fields. -/
structure SwapTransaction where
  toAddress : String
  tokenIn : String
  tokenOut : String
  fee : Nat
  recipient : String
  deadline : Nat
  amountIn : ℤ
  amountOutMinimum : ℤ
  sqrtPriceLimitX96 : ℤ
  value : ℤ
  deriving DecidableEq, Repr

/-- The structured result returned by `executeSwap` (lines 371-377, 404-411,
417-421); fields absent from the returned object are `none`. -/
structure ExecutionResult where
  success : Bool
  dryRun : Bool
  error : Option SwapError
  transactionHash : Option String
  blockNumber : Option Nat
  gasUsed : Option Nat
  swapDetails : Option SwapDetails
  deriving DecidableEq, Repr

/-- One `executeSwap` call: its returned result, the executor state after the
call, and the trace of external collaborator calls it issued. -/
structure ExecOutcome where
  result : ExecutionResult
  state : SwapExecutorState
  trace : List RpcCall
  deriving DecidableEq, Repr

/-- `validateSwapParameters` (lines 430-461): missing-field check via
JavaScript truthiness, address syntax of both tokens (or the `ETH` sentinel),
same-token rejection, and amount parse/positivity; returns the first violated
rule's error, `none` when validation passes. -/
def validateSwapParameters (p : SwapParams) : Option SwapError :=
  match p.tokenIn, p.tokenOut, p.amountIn with
  | some tokenIn, some tokenOut, some amountIn =>
    if tokenIn != "ETH" && !isAddress tokenIn then some SwapError.invalidTokenIn
    else if tokenOut != "ETH" && !isAddress tokenOut then some SwapError.invalidTokenOut
    else if tokenIn == tokenOut then some SwapError.sameTokenSwap
    else
      match parseUnits amountIn 18 with
      | some amount => if amount ≤ 0 then some SwapError.invalidAmount else none
      | none => some SwapError.invalidAmount
  | _, _, _ => some SwapError.missingParameters

/-- `verifyBalanceAndAllowance` (lines 469-503): for `ETH` a wei balance check
against `parseEther(amount)`; for a token a raw-unit balance check followed by
an allowance check, both scaled by the token's reported decimals.  Returns the
thrown error (if any) and the trace of collaborator calls made. -/
def verifyBalanceAndAllowance (env : Env) (tokenAddress : String) (amount : Dec) :
    Option SwapError × List RpcCall :=
  if tokenAddress == "ETH" then
    match parseUnits amount 18 with
    | none => (some SwapError.unitsParseFailure, [RpcCall.getBalance])
    | some requiredAmount =>
      if env.ethBalanceWei < requiredAmount then
        (some SwapError.insufficientEthBalance, [RpcCall.getBalance])
      else (none, [RpcCall.getBalance])
  else
    let tr := [RpcCall.balanceOf tokenAddress, RpcCall.getDecimals tokenAddress]
    match parseUnits amount (env.tokenDecimals tokenAddress) with
    | none => (some SwapError.unitsParseFailure, tr)
    | some requiredAmount =>
      if env.tokenBalanceRaw tokenAddress < requiredAmount then
        (some SwapError.insufficientTokenBalance, tr)
      else if env.allowanceRaw tokenAddress < requiredAmount then
        (some SwapError.insufficientAllowance, tr ++ [RpcCall.allowance tokenAddress])
      else (none, tr ++ [RpcCall.allowance tokenAddress])

/-- `calculateSwapDetails` (lines 514-535): `ETH` is normalized to the WETH
address on both legs, the estimated output is the placeholder 1:1 value, and
the slippage floor is `estimatedOutput * (1 - slippagePercent / 100)`
(computed here as the exact decimal value). -/
def calculateSwapDetails (tokenIn tokenOut : String) (amountIn slippagePercent : Dec) :
    SwapDetails where
  tokenInAddress := if tokenIn == "ETH" then WETH_ADDRESS else tokenIn
  tokenOutAddress := if tokenOut == "ETH" then WETH_ADDRESS else tokenOut
  amountIn := amountIn
  estimatedOutput := amountIn
  minOutputAfterSlippage := amountIn.mul ((Dec.mk 1 0).sub (slippagePercent.divPow10 2))
  slippagePercent := slippagePercent
  fee := 3000

/-- `buildSwapTransaction` (lines 543-567): deadline from the configured
minutes, `exactInputSingle` parameters with both amounts scaled to 18
decimals, and the native `value` attached exactly when the *normalized* input
token is the WETH address (line 565). -/
def buildSwapTransaction (env : Env) (cfg : SwapConfig) (d : SwapDetails) :
    Except SwapError SwapTransaction :=
  match parseUnits d.amountIn 18, parseUnits d.minOutputAfterSlippage 18 with
  | some amountIn, some amountOutMinimum =>
    if uint256InBounds amountIn && uint256InBounds amountOutMinimum then
      Except.ok
        { toAddress := UNISWAP_V3_ROUTER_ADDRESS
          tokenIn := d.tokenInAddress
          tokenOut := d.tokenOutAddress
          fee := d.fee
          recipient := env.walletAddress
          deadline := env.nowSeconds + cfg.transactionDeadlineMinutes * 60
          amountIn := amountIn
          amountOutMinimum := amountOutMinimum
          sqrtPriceLimitX96 := 0
          value := if d.tokenInAddress == WETH_ADDRESS then amountIn else 0 }
    else Except.error SwapError.encodeOutOfBounds
  | _, _ => Except.error SwapError.unitsParseFailure

/-- The catch block's `dryRun: swapParams.dryRun || true` (line 420):
JavaScript `||` yields `true` both for a truthy `dryRun` and for any falsy
value (`false` or an absent field). -/
def catchBlockDryRun (p : SwapParams) : Bool :=
  match p.dryRun with
  | some b => b || true
  | none => true

/-- The catch block of `executeSwap` (lines 413-422): increments
`totalSwapsFailed` and returns the failure `ExecutionResult`. -/
def failOutcome (p : SwapParams) (e : SwapError) (st : SwapExecutorState)
    (tr : List RpcCall) : ExecOutcome where
  result :=
    { success := false
      dryRun := catchBlockDryRun p
      error := some e
      transactionHash := none
      blockNumber := none
      gasUsed := none
      swapDetails := none }
  state := { st with stats := { st.stats with totalSwapsFailed := st.stats.totalSwapsFailed + 1 } }
  trace := tr

/-- Stages 6-8 of `executeSwap` (lines 340-411): gas-estimation simulation
(`wallet.estimateGas`, line 348), the fee query on success (line 352), then
either the dry-run return — whose evaluation raises the out-of-scope
`ReferenceError`, see `SwapError.dryRunReturnOutOfScope` — the
real-trading-disabled throw (line 385), or the broadcast/confirmation path
with its statistics updates (lines 392-411).  `tr` is the collaborator-call
trace accumulated by the earlier stages. -/
def simulateAndFinish (env : Env) (p : SwapParams) (st1 : SwapExecutorState)
    (dryRun : Bool) (swapDetails : SwapDetails) (tr : List RpcCall) : ExecOutcome :=
  match env.gasEstimate with
  | none => failOutcome p SwapError.simulationFailed st1 (tr ++ [RpcCall.estimateGas])
  | some _gasEstimate =>
    let tr2 := tr ++ [RpcCall.estimateGas, RpcCall.getFeeData]
    if dryRun then
      failOutcome p SwapError.dryRunReturnOutOfScope st1 tr2
    else if !st1.config.enableRealTrading then
      failOutcome p SwapError.realTradingDisabled st1 tr2
    else if !env.sendOk then
      failOutcome p SwapError.sendFailed st1 (tr2 ++ [RpcCall.sendTransaction])
    else if !env.confirmOk then
      failOutcome p SwapError.confirmationFailed st1
        (tr2 ++ [RpcCall.sendTransaction, RpcCall.waitForReceipt])
    else
      let gasCostWei : ℤ := (env.gasUsed : ℤ) * env.effectiveGasPriceWei
      { result :=
          { success := true
            dryRun := false
            error := none
            transactionHash := some env.txHash
            blockNumber := some env.blockNumber
            gasUsed := some env.gasUsed
            swapDetails := some swapDetails }
        state :=
          { st1 with stats :=
              { st1.stats with
                  totalSwapsExecuted := st1.stats.totalSwapsExecuted + 1
                  totalGasSpentETH :=
                    st1.stats.totalGasSpentETH.add ⟨gasCostWei, 18⟩
                  lastSwapTime := some env.nowSeconds } }
        trace := tr2 ++ [RpcCall.sendTransaction, RpcCall.waitForReceipt] }

/-- Stage 5 of `executeSwap` (line 337): transaction construction, whose
library throws are routed to the catch block, followed by the simulation
stages. -/
def buildAndSimulate (env : Env) (p : SwapParams) (st1 : SwapExecutorState)
    (dryRun : Bool) (swapDetails : SwapDetails) (tr : List RpcCall) : ExecOutcome :=
  match buildSwapTransaction env st1.config swapDetails with
  | Except.error e => failOutcome p e st1 tr
  | Except.ok _tx => simulateAndFinish env p st1 dryRun swapDetails tr

/-- Stages 3-5 of `executeSwap` (lines 321-337): balance/allowance
verification, swap-details calculation, then construction and the later
stages. -/
def verifyOnwards (env : Env) (p : SwapParams) (st1 : SwapExecutorState)
    (tokenIn tokenOut : String) (amountIn slippagePercent : Dec) (dryRun : Bool) : ExecOutcome :=
  let verification := verifyBalanceAndAllowance env tokenIn amountIn
  match verification.1 with
  | some e => failOutcome p e st1 verification.2
  | none =>
    buildAndSimulate env p st1 dryRun
      (calculateSwapDetails tokenIn tokenOut amountIn slippagePercent) verification.2

/-- `executeSwap` (lines 276-423), assembled from the stage functions above:
enabled check (line 286), emergency stop (line 291), parameter validation
(line 296), `totalSwapsRequested` increment (line 299), destructuring with
defaults (lines 305-312), then the verification/calculation/construction/
simulation/execution stages.  The field `match` mirrors the destructuring;
when a field is absent, `validateSwapParameters` throws its
missing-parameters error first, exactly as in the source. -/
def executeSwap (env : Env) (st : SwapExecutorState) (p : SwapParams) : ExecOutcome :=
  if !st.isEnabled then failOutcome p SwapError.notEnabled st []
  else if st.config.emergencyStop then failOutcome p SwapError.emergencyStopActive st []
  else
    match p.tokenIn, p.tokenOut, p.amountIn with
    | some tokenIn, some tokenOut, some amountIn =>
      match validateSwapParameters p with
      | some e => failOutcome p e st []
      | none =>
        let st1 : SwapExecutorState :=
          { st with stats :=
              { st.stats with totalSwapsRequested := st.stats.totalSwapsRequested + 1 } }
        verifyOnwards env p st1 tokenIn tokenOut amountIn
          (p.slippagePercent.getD st.config.maxSlippagePercent) (p.dryRun.getD true)
    | _, _, _ => failOutcome p SwapError.missingParameters st []

/-- `emergencyStop()` (lines 572-576). -/
def emergencyStop (st : SwapExecutorState) : SwapExecutorState :=
  { st with config := { st.config with emergencyStop := true } }

/-- `resumeTrading()` (lines 581-584). -/
def resumeTrading (st : SwapExecutorState) : SwapExecutorState :=
  { st with config := { st.config with emergencyStop := false } }

/-- One external interaction with the executor instance. -/
inductive ExecutorOp where
  | swap (env : Env) (p : SwapParams)
  | stop
  | resume

/-- Apply one interaction to the executor state. -/
def applyOp (st : SwapExecutorState) : ExecutorOp → SwapExecutorState
  | ExecutorOp.swap env p => (executeSwap env st p).state
  | ExecutorOp.stop => emergencyStop st
  | ExecutorOp.resume => resumeTrading st

/-- Run a sequence of interactions. -/
def runOps (st : SwapExecutorState) : List ExecutorOp → SwapExecutorState
  | [] => st
  | op :: ops => runOps (applyOp st op) ops

/-- Number of `executeSwap` calls in a sequence of interactions. -/
def swapCount : List ExecutorOp → Nat
  | [] => 0
  | ExecutorOp.swap _ _ :: ops => swapCount ops + 1
  | ExecutorOp.stop :: ops => swapCount ops
  | ExecutorOp.resume :: ops => swapCount ops

/-- Calls that read a wallet balance (the first collaborator call of
`verifyBalanceAndAllowance` on either branch). -/
def isBalanceQuery : RpcCall → Bool
  | RpcCall.getBalance => true
  | RpcCall.balanceOf _ => true
  | _ => false

/-- The `value` field of a successfully built transaction. -/
def txValueOf : Except SwapError SwapTransaction → Option ℤ
  | Except.ok tx => some tx.value
  | Except.error _ => none

/-- The encoded `(tokenIn, tokenOut)` pair of a successfully built
transaction. -/
def txTokensOf : Except SwapError SwapTransaction → Option (String × String)
  | Except.ok tx => some (tx.tokenIn, tx.tokenOut)
  | Except.error _ => none

/-- Whether transaction construction succeeded. -/
def buildSucceeded : Except SwapError SwapTransaction → Bool
  | Except.ok _ => true
  | Except.error _ => false

/-- A mocked external world with ample balances and allowance, a successful
gas estimation, and a successful broadcast path. -/
def mockEnv : Env where
  ethBalanceWei := 10 ^ 21
  tokenBalanceRaw := fun _ => 10 ^ 24
  tokenDecimals := fun _ => 18
  allowanceRaw := fun _ => 10 ^ 24
  gasEstimate := some 210000
  gasPriceWei := 10 ^ 9
  walletAddress := "0x7E5F4552091A69125d5DfCb7b8C2659029395Bdf"
  nowSeconds := 1700000000
  sendOk := true
  confirmOk := true
  txHash := "0xabc"
  blockNumber := 19000000
  gasUsed := 180000
  effectiveGasPriceWei := 10 ^ 9

/-- A fully valid dry-run request: `0.01 ETH → UNI`, 1% slippage,
`dryRun: true` (the spec's Scenario A shape). -/
def dryRunEthToUni : SwapParams where
  tokenIn := some "ETH"
  tokenOut := some UNI_ADDRESS
  amountIn := some ⟨1, 2⟩
  slippagePercent := some ⟨1, 0⟩
  dryRun := some true
  reason := some "demo"

/-- A request identical to `dryRunEthToUni` except for an out-of-range
slippage tolerance of 150%. -/
def slippage150Params : SwapParams where
  tokenIn := some "ETH"
  tokenOut := some UNI_ADDRESS
  amountIn := some ⟨1, 2⟩
  slippagePercent := some ⟨150, 0⟩
  dryRun := some true
  reason := some "out-of-range slippage"

/-- A native-asset request whose amount (1 ETH) exceeds the default
`maxTransactionValueETH` of 0.1 ETH. -/
def oneEthParams : SwapParams where
  tokenIn := some "ETH"
  tokenOut := some UNI_ADDRESS
  amountIn := some ⟨1, 0⟩
  slippagePercent := some ⟨1, 0⟩
  dryRun := some true
  reason := some "exceeds value limit"

/-- The `ETH → WETH` request: both legs normalize to the WETH address. -/
def ethToWethParams : SwapParams where
  tokenIn := some "ETH"
  tokenOut := some WETH_ADDRESS
  amountIn := some ⟨1, 0⟩
  slippagePercent := some ⟨1, 0⟩
  dryRun := some true
  reason := some "ETH to WETH"

/- Helper lemmas about the embedded operations. -/

/-- The catch block's `dryRun` field is `true` for every request. -/
theorem catchBlockDryRun_eq_true (p : SwapParams) : catchBlockDryRun p = true := by
  unfold catchBlockDryRun
  cases p.dryRun <;> simp

/-- Balance/allowance verification returns one of exactly three traces. -/
theorem verify_pair_cases (env : Env) (t : String) (a : Dec) :
    ∃ e, verifyBalanceAndAllowance env t a = (e, [RpcCall.getBalance]) ∨
         verifyBalanceAndAllowance env t a
           = (e, [RpcCall.balanceOf t, RpcCall.getDecimals t]) ∨
         verifyBalanceAndAllowance env t a
           = (e, [RpcCall.balanceOf t, RpcCall.getDecimals t, RpcCall.allowance t]) := by
  unfold verifyBalanceAndAllowance
  repeat' split
  all_goals first
  | exact ⟨_, Or.inl rfl⟩
  | exact ⟨_, Or.inr (Or.inl rfl)⟩
  | exact ⟨_, Or.inr (Or.inr rfl)⟩

/-- Balance/allowance verification never broadcasts. -/
theorem verify_no_send (env : Env) (t : String) (a : Dec) :
    RpcCall.sendTransaction ∉ (verifyBalanceAndAllowance env t a).2 := by
  obtain ⟨e, h | h | h⟩ := verify_pair_cases env t a <;> simp [h]

/-- Balance/allowance verification always begins with a balance query, on both
the native and the token branch. -/
theorem verify_trace_shape (env : Env) (t : String) (a : Dec) :
    ∃ c l, (verifyBalanceAndAllowance env t a).2 = c :: l ∧ isBalanceQuery c = true := by
  obtain ⟨e, h | h | h⟩ := verify_pair_cases env t a
  · exact ⟨RpcCall.getBalance, [], by simp [h], rfl⟩
  · exact ⟨RpcCall.balanceOf t, [RpcCall.getDecimals t], by simp [h], rfl⟩
  · exact ⟨RpcCall.balanceOf t, [RpcCall.getDecimals t, RpcCall.allowance t], by simp [h], rfl⟩

/-- When validation passes, all three required fields were present. -/
theorem validate_none_fields (p : SwapParams) (h : validateSwapParameters p = none) :
    ∃ tIn tOut amt, p.tokenIn = some tIn ∧ p.tokenOut = some tOut ∧ p.amountIn = some amt := by
  unfold validateSwapParameters at h
  split at h
  · exact ⟨_, _, _, by assumption, by assumption, by assumption⟩
  · simp at h

/-- The three statistics counters of `st'` differ from those of `st` by the
given increments. -/
def StatsDelta (st st' : SwapExecutorState) (dreq dex dfail : ℕ) : Prop :=
  st'.stats.totalSwapsRequested = st.stats.totalSwapsRequested + dreq ∧
  st'.stats.totalSwapsExecuted = st.stats.totalSwapsExecuted + dex ∧
  st'.stats.totalSwapsFailed = st.stats.totalSwapsFailed + dfail

/-- The simulation/execution stages record exactly one terminal outcome:
either a failure or an execution. -/
theorem simulateAndFinish_stats (env : Env) (p : SwapParams) (st1 : SwapExecutorState)
    (d : Bool) (sd : SwapDetails) (tr : List RpcCall) :
    StatsDelta st1 (simulateAndFinish env p st1 d sd tr).state 0 0 1 ∨
    StatsDelta st1 (simulateAndFinish env p st1 d sd tr).state 0 1 0 := by
  unfold simulateAndFinish
  repeat' split
  all_goals first
  | (left; simp [failOutcome, StatsDelta]; done)
  | (right; simp [StatsDelta]; done)

/-- Construction plus the later stages record exactly one terminal outcome. -/
theorem buildAndSimulate_stats (env : Env) (p : SwapParams) (st1 : SwapExecutorState)
    (d : Bool) (sd : SwapDetails) (tr : List RpcCall) :
    StatsDelta st1 (buildAndSimulate env p st1 d sd tr).state 0 0 1 ∨
    StatsDelta st1 (buildAndSimulate env p st1 d sd tr).state 0 1 0 := by
  unfold buildAndSimulate
  cases hb : buildSwapTransaction env st1.config sd with
  | error e => exact Or.inl (by simp [failOutcome, StatsDelta])
  | ok tx => simpa using simulateAndFinish_stats env p st1 d sd tr

/-- Verification plus the later stages record exactly one terminal outcome. -/
theorem verifyOnwards_stats (env : Env) (p : SwapParams) (st1 : SwapExecutorState)
    (tokenIn tokenOut : String) (a s : Dec) (d : Bool) :
    StatsDelta st1 (verifyOnwards env p st1 tokenIn tokenOut a s d).state 0 0 1 ∨
    StatsDelta st1 (verifyOnwards env p st1 tokenIn tokenOut a s d).state 0 1 0 := by
  simp only [verifyOnwards]
  cases hv : (verifyBalanceAndAllowance env tokenIn a).1 with
  | some e => exact Or.inl (by simp [failOutcome, StatsDelta])
  | none =>
    simpa using
      buildAndSimulate_stats env p st1 d (calculateSwapDetails tokenIn tokenOut a s)
        (verifyBalanceAndAllowance env tokenIn a).2

/-- The post-validation stages, measured against the pre-request state: a
failure after the request was counted, or a successful execution. -/
theorem verifyOnwards_stats_from (env : Env) (p : SwapParams)
    (st st1 : SwapExecutorState) (tokenIn tokenOut : String) (a s : Dec) (d : Bool)
    (h1 : st1.stats.totalSwapsRequested = st.stats.totalSwapsRequested + 1)
    (h2 : st1.stats.totalSwapsExecuted = st.stats.totalSwapsExecuted)
    (h3 : st1.stats.totalSwapsFailed = st.stats.totalSwapsFailed) :
    StatsDelta st (verifyOnwards env p st1 tokenIn tokenOut a s d).state 1 0 1 ∨
    StatsDelta st (verifyOnwards env p st1 tokenIn tokenOut a s d).state 1 1 0 := by
  rcases verifyOnwards_stats env p st1 tokenIn tokenOut a s d with h | h <;>
    unfold StatsDelta at h ⊢ <;> omega

/-- Every `executeSwap` call updates the three counters in exactly one of
three ways: a failure before the request was counted, a failure after it, or
a successful execution. -/
theorem executeSwap_stats_cases (env : Env) (st : SwapExecutorState) (p : SwapParams) :
    StatsDelta st (executeSwap env st p).state 0 0 1 ∨
    StatsDelta st (executeSwap env st p).state 1 0 1 ∨
    StatsDelta st (executeSwap env st p).state 1 1 0 := by
  unfold executeSwap
  repeat' split
  all_goals first
  | (left; simp [failOutcome, StatsDelta]; done)
  | (right;
     exact verifyOnwards_stats_from _ _ st _ _ _ _ _ _ (by simp) (by simp) (by simp))

/-- Counter bounds propagated along any interaction sequence. -/
theorem runOps_stats_bound (ops : List ExecutorOp) :
    ∀ st : SwapExecutorState,
      st.stats.totalSwapsExecuted ≤ st.stats.totalSwapsRequested →
      (runOps st ops).stats.totalSwapsExecuted ≤ (runOps st ops).stats.totalSwapsRequested ∧
      (runOps st ops).stats.totalSwapsRequested
          ≤ st.stats.totalSwapsRequested + swapCount ops ∧
      (runOps st ops).stats.totalSwapsExecuted + (runOps st ops).stats.totalSwapsFailed
          = st.stats.totalSwapsExecuted + st.stats.totalSwapsFailed + swapCount ops := by
  induction ops with
  | nil => intro st h; simpa [runOps, swapCount] using h
  | cons op ops ih =>
    intro st h
    cases op with
    | swap env p =>
      have hc := executeSwap_stats_cases env st p
      unfold StatsDelta at hc
      have h' : (executeSwap env st p).state.stats.totalSwapsExecuted
          ≤ (executeSwap env st p).state.stats.totalSwapsRequested := by omega
      have hb := ih (executeSwap env st p).state h'
      simp only [runOps, applyOp, swapCount]
      omega
    | stop =>
      have hb := ih (emergencyStop st) (by simpa [emergencyStop] using h)
      simpa [runOps, applyOp, emergencyStop, swapCount] using hb
    | resume =>
      have hb := ih (resumeTrading st) (by simpa [resumeTrading] using h)
      simpa [runOps, applyOp, resumeTrading, swapCount] using hb

/- Trace lemmas for the simulation stages. -/

/-- The simulation stage always performs the gas-estimation call. -/
theorem simulateAndFinish_has_estimateGas (env : Env) (p : SwapParams)
    (st1 : SwapExecutorState) (d : Bool) (sd : SwapDetails) (tr : List RpcCall) :
    RpcCall.estimateGas ∈ (simulateAndFinish env p st1 d sd tr).trace := by
  unfold simulateAndFinish
  repeat' split
  all_goals simp [failOutcome, List.mem_append]

/-- When construction succeeds, the later stages perform the gas-estimation
call. -/
theorem buildAndSimulate_ok_has_estimateGas (env : Env) (p : SwapParams)
    (st1 : SwapExecutorState) (d : Bool) (sd : SwapDetails) (tr : List RpcCall)
    (h : buildSucceeded (buildSwapTransaction env st1.config sd) = true) :
    RpcCall.estimateGas ∈ (buildAndSimulate env p st1 d sd tr).trace := by
  unfold buildAndSimulate
  cases hb : buildSwapTransaction env st1.config sd with
  | error e => rw [hb] at h; simp [buildSucceeded] at h
  | ok tx => simpa using simulateAndFinish_has_estimateGas env p st1 d sd tr

/-- When verification and construction succeed, the pipeline performs the
gas-estimation call. -/
theorem verifyOnwards_ok_has_estimateGas (env : Env) (p : SwapParams)
    (st1 : SwapExecutorState) (i o : String) (a s : Dec) (d : Bool)
    (hv : (verifyBalanceAndAllowance env i a).1 = none)
    (hb : buildSucceeded
        (buildSwapTransaction env st1.config (calculateSwapDetails i o a s)) = true) :
    RpcCall.estimateGas ∈ (verifyOnwards env p st1 i o a s d).trace := by
  simp only [verifyOnwards, hv]
  simpa using
    buildAndSimulate_ok_has_estimateGas env p st1 d (calculateSwapDetails i o a s)
      (verifyBalanceAndAllowance env i a).2 hb

/-- The simulation stages only append to the accumulated trace. -/
theorem simulateAndFinish_trace_prefix (env : Env) (p : SwapParams)
    (st1 : SwapExecutorState) (d : Bool) (sd : SwapDetails) (tr : List RpcCall) :
    ∃ l, (simulateAndFinish env p st1 d sd tr).trace = tr ++ l := by
  unfold simulateAndFinish
  cases env.gasEstimate with
  | none => exact ⟨[RpcCall.estimateGas], by simp [failOutcome]⟩
  | some g =>
    by_cases hd : d = true
    · exact ⟨[RpcCall.estimateGas, RpcCall.getFeeData], by simp [hd, failOutcome]⟩
    · by_cases hr : st1.config.enableRealTrading = true
      · by_cases hs : env.sendOk = true
        · by_cases hc : env.confirmOk = true
          · exact ⟨[RpcCall.estimateGas, RpcCall.getFeeData, RpcCall.sendTransaction,
              RpcCall.waitForReceipt], by simp [hd, hr, hs, hc]⟩
          · exact ⟨[RpcCall.estimateGas, RpcCall.getFeeData, RpcCall.sendTransaction,
              RpcCall.waitForReceipt], by simp [hd, hr, hs, hc, failOutcome]⟩
        · exact ⟨[RpcCall.estimateGas, RpcCall.getFeeData, RpcCall.sendTransaction],
            by simp [hd, hr, hs, failOutcome]⟩
      · exact ⟨[RpcCall.estimateGas, RpcCall.getFeeData],
          by simp [hd, hr, failOutcome]⟩

/-- Construction and the later stages only append to the accumulated trace. -/
theorem buildAndSimulate_trace_prefix (env : Env) (p : SwapParams)
    (st1 : SwapExecutorState) (d : Bool) (sd : SwapDetails) (tr : List RpcCall) :
    ∃ l, (buildAndSimulate env p st1 d sd tr).trace = tr ++ l := by
  unfold buildAndSimulate
  cases hb : buildSwapTransaction env st1.config sd with
  | error e => exact ⟨[], by simp [failOutcome]⟩
  | ok tx => simpa using simulateAndFinish_trace_prefix env p st1 d sd tr

/-- The first collaborator call of the post-validation stages is always a
balance query. -/
theorem verifyOnwards_trace_head (env : Env) (p : SwapParams)
    (st1 : SwapExecutorState) (i o : String) (a s : Dec) (d : Bool) :
    ∃ c, ((verifyOnwards env p st1 i o a s d).trace).head? = some c
        ∧ isBalanceQuery c = true := by
  obtain ⟨c, l, hsh, hq⟩ := verify_trace_shape env i a
  simp only [verifyOnwards]
  cases hv : (verifyBalanceAndAllowance env i a).1 with
  | some e => exact ⟨c, by simp [failOutcome, hsh], hq⟩
  | none =>
    obtain ⟨l2, hl2⟩ :=
      buildAndSimulate_trace_prefix env p st1 d (calculateSwapDetails i o a s)
        (verifyBalanceAndAllowance env i a).2
    refine ⟨c, ?_, hq⟩
    rw [hsh] at hl2
    simp [hsh, hl2]

/-- A dry run of the simulation stages never broadcasts, provided the earlier
stages did not broadcast. -/
theorem simulateAndFinish_dryRun_no_send (env : Env) (p : SwapParams)
    (st1 : SwapExecutorState) (sd : SwapDetails) (tr : List RpcCall)
    (h : RpcCall.sendTransaction ∉ tr) :
    RpcCall.sendTransaction ∉ (simulateAndFinish env p st1 true sd tr).trace := by
  unfold simulateAndFinish
  repeat' split <;> simp_all [failOutcome]

/-- A dry run of construction and the later stages never broadcasts. -/
theorem buildAndSimulate_dryRun_no_send (env : Env) (p : SwapParams)
    (st1 : SwapExecutorState) (sd : SwapDetails) (tr : List RpcCall)
    (h : RpcCall.sendTransaction ∉ tr) :
    RpcCall.sendTransaction ∉ (buildAndSimulate env p st1 true sd tr).trace := by
  unfold buildAndSimulate
  cases hb : buildSwapTransaction env st1.config sd with
  | error e => simpa [failOutcome] using h
  | ok tx => simpa using simulateAndFinish_dryRun_no_send env p st1 sd tr h

/-- A dry run of the whole post-validation pipeline never broadcasts. -/
theorem verifyOnwards_dryRun_no_send (env : Env) (p : SwapParams)
    (st1 : SwapExecutorState) (i o : String) (a s : Dec) :
    RpcCall.sendTransaction ∉ (verifyOnwards env p st1 i o a s true).trace := by
  simp only [verifyOnwards]
  cases hv : (verifyBalanceAndAllowance env i a).1 with
  | some e => simpa [failOutcome] using verify_no_send env i a
  | none =>
    simpa using
      buildAndSimulate_dryRun_no_send env p st1 (calculateSwapDetails i o a s)
        (verifyBalanceAndAllowance env i a).2 (verify_no_send env i a)

/- Result-shape lemmas. -/

/-- Every result of the simulation stages is either the success result or a
catch-block failure result. -/
theorem simulateAndFinish_result_form (env : Env) (p : SwapParams)
    (st1 : SwapExecutorState) (d : Bool) (sd : SwapDetails) (tr : List RpcCall) :
    (simulateAndFinish env p st1 d sd tr).result.success = true ∨
    ((simulateAndFinish env p st1 d sd tr).result.success = false ∧
     (simulateAndFinish env p st1 d sd tr).result.dryRun = catchBlockDryRun p) := by
  unfold simulateAndFinish
  repeat' split
  all_goals first
  | (left; simp; done)
  | (right; simp [failOutcome]; done)

/-- Every result of construction and the later stages is a success or a
catch-block failure. -/
theorem buildAndSimulate_result_form (env : Env) (p : SwapParams)
    (st1 : SwapExecutorState) (d : Bool) (sd : SwapDetails) (tr : List RpcCall) :
    (buildAndSimulate env p st1 d sd tr).result.success = true ∨
    ((buildAndSimulate env p st1 d sd tr).result.success = false ∧
     (buildAndSimulate env p st1 d sd tr).result.dryRun = catchBlockDryRun p) := by
  unfold buildAndSimulate
  cases hb : buildSwapTransaction env st1.config sd with
  | error e => right; simp [failOutcome]
  | ok tx => simpa using simulateAndFinish_result_form env p st1 d sd tr

/-- Every result of the post-validation pipeline is a success or a
catch-block failure. -/
theorem verifyOnwards_result_form (env : Env) (p : SwapParams)
    (st1 : SwapExecutorState) (i o : String) (a s : Dec) (d : Bool) :
    (verifyOnwards env p st1 i o a s d).result.success = true ∨
    ((verifyOnwards env p st1 i o a s d).result.success = false ∧
     (verifyOnwards env p st1 i o a s d).result.dryRun = catchBlockDryRun p) := by
  simp only [verifyOnwards]
  cases hv : (verifyBalanceAndAllowance env i a).1 with
  | some e => right; simp [failOutcome]
  | none =>
    simpa using
      buildAndSimulate_result_form env p st1 d (calculateSwapDetails i o a s)
        (verifyBalanceAndAllowance env i a).2

/-- Every `executeSwap` result is a success or a catch-block failure. -/
theorem executeSwap_result_form (env : Env) (st : SwapExecutorState) (p : SwapParams) :
    (executeSwap env st p).result.success = true ∨
    ((executeSwap env st p).result.success = false ∧
     (executeSwap env st p).result.dryRun = catchBlockDryRun p) := by
  unfold executeSwap
  repeat' split
  all_goals first
  | (right; simp [failOutcome]; done)
  | exact verifyOnwards_result_form _ _ _ _ _ _ _ _

/-- A request whose `dryRun` is `false`, targeting the real-execution path. -/
def realRunParams : SwapParams where
  tokenIn := some "ETH"
  tokenOut := some UNI_ADDRESS
  amountIn := some ⟨1, 2⟩
  slippagePercent := some ⟨1, 0⟩
  dryRun := some false
  reason := some "real execution attempt"

/-- C1 (counterexample): from a fresh enabled executor, `emergencyStop()`
followed by one perfectly valid `executeSwap` request leaves
`totalSwapsFailed = 1` but `totalSwapsRequested = 0`, violating
`totalExecuted + totalFailed ≤ totalRequested`: the failure counter is bumped
by the catch block even though the request counter increments only after the
enabled/emergency/validation checks. -/
theorem stats_invariant_fails_after_stopped_request :
    ¬ ((runOps (freshExecutor defaultConfig true)
          [ExecutorOp.stop, ExecutorOp.swap mockEnv dryRunEthToUni]).stats.totalSwapsExecuted
        + (runOps (freshExecutor defaultConfig true)
            [ExecutorOp.stop, ExecutorOp.swap mockEnv dryRunEthToUni]).stats.totalSwapsFailed
        ≤ (runOps (freshExecutor defaultConfig true)
            [ExecutorOp.stop, ExecutorOp.swap mockEnv dryRunEthToUni]).stats.totalSwapsRequested) := by
  decide

/-- C1 (amended): after any interaction sequence from a fresh executor,
`totalSwapsExecuted ≤ totalSwapsRequested`, `totalSwapsRequested` is at most
the number of `executeSwap` calls, and `totalSwapsExecuted + totalSwapsFailed`
equals the number of `executeSwap` calls (each call records exactly one
terminal outcome); but requests failing before the request counter is
incremented (disabled executor, emergency stop, validation) bump
`totalSwapsFailed` without bumping `totalSwapsRequested`, so
`totalExecuted + totalFailed ≤ totalRequested` does not hold in general.  The
second conjunct is the per-call delta: each call changes the counters by
exactly one of the three listed single-outcome updates. -/
theorem stats_invariant_amended :
    (∀ (cfg : SwapConfig) (enabled : Bool) (ops : List ExecutorOp),
      (runOps (freshExecutor cfg enabled) ops).stats.totalSwapsExecuted
          ≤ (runOps (freshExecutor cfg enabled) ops).stats.totalSwapsRequested ∧
      (runOps (freshExecutor cfg enabled) ops).stats.totalSwapsRequested ≤ swapCount ops ∧
      (runOps (freshExecutor cfg enabled) ops).stats.totalSwapsExecuted
          + (runOps (freshExecutor cfg enabled) ops).stats.totalSwapsFailed
          = swapCount ops) ∧
    (∀ (env : Env) (st : SwapExecutorState) (p : SwapParams),
      StatsDelta st (executeSwap env st p).state 0 0 1 ∨
      StatsDelta st (executeSwap env st p).state 1 0 1 ∨
      StatsDelta st (executeSwap env st p).state 1 1 0) := by
  constructor
  · intro cfg enabled ops
    have h := runOps_stats_bound ops (freshExecutor cfg enabled)
      (by simp [freshExecutor, initialStats])
    simpa [freshExecutor, initialStats] using h
  · exact executeSwap_stats_cases

/-- C2 (code bug): a fully valid `dryRun = true` request that passes
validation, balance verification, and gas-estimation simulation does NOT
return `success = true`: the dry-run return object (lines 371-377) reads
`simulationResult` and `estimatedCostETH`, `const`-declared inside the inner
try block and out of scope there, so evaluating the return raises a
`ReferenceError` which the catch block converts into a failure result.  The
trace shows the simulation was performed (`estimateGas`, `getFeeData`) and no
broadcast occurred. -/
theorem dry_run_through_simulation_returns_failure :
    (executeSwap mockEnv (freshExecutor defaultConfig true) dryRunEthToUni).result.success
        = false ∧
    (executeSwap mockEnv (freshExecutor defaultConfig true) dryRunEthToUni).result.dryRun
        = true ∧
    (executeSwap mockEnv (freshExecutor defaultConfig true) dryRunEthToUni).result.error
        = some SwapError.dryRunReturnOutOfScope ∧
    (executeSwap mockEnv (freshExecutor defaultConfig true) dryRunEthToUni).trace
        = [RpcCall.getBalance, RpcCall.estimateGas, RpcCall.getFeeData] := by
  refine ⟨by decide, by decide, by decide, by decide⟩

/-- C3 (counterexample): a request with slippage 150% (outside `[0,100]`) is
not rejected before the balance query: the executor queries the wallet
balance, and the run eventually fails with the `uint256` encoding error
caused by the negative minimum output — there is no `InvalidSlippage`
rejection. -/
theorem slippage150_not_rejected_before_balance_query :
    100 < (Dec.mk 150 0).toRat ∧
    ((executeSwap mockEnv (freshExecutor defaultConfig true) slippage150Params).trace.contains
        RpcCall.getBalance) = true ∧
    (executeSwap mockEnv (freshExecutor defaultConfig true) slippage150Params).result.error
        = some SwapError.encodeOutOfBounds := by
  refine ⟨by norm_num [Dec.toRat], by decide, by decide⟩

/-- C3 (amended): the pipeline performs no slippage-range check at all: for
every request with `slippagePercent` outside `[0,100]` that is accepted by
parameter validation (on an enabled, non-stopped executor), the first
collaborator call is a wallet balance query — the request reaches the
balance-verification stage instead of being rejected with a slippage error. -/
theorem out_of_range_slippage_reaches_balance_query
    (env : Env) (st : SwapExecutorState) (p : SwapParams) (s : Dec)
    (hs : p.slippagePercent = some s)
    (hrange : s.toRat < 0 ∨ 100 < s.toRat)
    (hen : st.isEnabled = true)
    (hstop : st.config.emergencyStop = false)
    (hval : validateSwapParameters p = none) :
    ∃ c, ((executeSwap env st p).trace).head? = some c ∧ isBalanceQuery c = true := by
  obtain ⟨tIn, tOut, amt, hIn, hOut, hAmt⟩ := validate_none_fields p hval
  unfold executeSwap
  simp only [hen, hstop, hIn, hOut, hAmt, hval, Bool.not_true, Bool.false_eq_true,
    if_false, ite_false]
  exact verifyOnwards_trace_head _ _ _ _ _ _ _ _

/-- C3 (witness): the amended theorem applied to the concrete 150%-slippage
request on a fresh enabled executor. -/
theorem out_of_range_slippage_reaches_balance_query_witness :
    ∃ c, ((executeSwap mockEnv (freshExecutor defaultConfig true) slippage150Params).trace).head?
        = some c ∧ isBalanceQuery c = true :=
  out_of_range_slippage_reaches_balance_query mockEnv (freshExecutor defaultConfig true)
    slippage150Params ⟨150, 0⟩ rfl (Or.inr (by norm_num [Dec.toRat])) rfl rfl (by decide)

/-- C4 (counterexample): a native request of 1 ETH, ten times the configured
`maxTransactionValueETH` of 0.1 ETH, still reaches the simulation stage (the
trace contains the `estimateGas` call); no `ValueLimitExceeded` rejection
exists. -/
theorem one_eth_over_limit_still_simulated :
    defaultConfig.maxTransactionValueETH.toRat < (Dec.mk 1 0).toRat ∧
    ((executeSwap mockEnv (freshExecutor defaultConfig true) oneEthParams).trace.contains
        RpcCall.estimateGas) = true := by
  refine ⟨by norm_num [Dec.toRat, defaultConfig], by decide⟩

/-- C4 (amended): the pipeline never compares `amountIn` against
`maxTransactionValueETH`: every native-asset request exceeding the configured
maximum that passes validation and balance verification, and whose
transaction builds, proceeds to the gas-estimation simulation (and onwards)
rather than being rejected with a value-limit error. -/
theorem native_over_limit_reaches_simulation
    (env : Env) (st : SwapExecutorState) (p : SwapParams) (tokenOut : String) (amt : Dec)
    (hIn : p.tokenIn = some "ETH") (hOut : p.tokenOut = some tokenOut)
    (hAmt : p.amountIn = some amt)
    (hover : st.config.maxTransactionValueETH.toRat < amt.toRat)
    (hen : st.isEnabled = true) (hstop : st.config.emergencyStop = false)
    (hval : validateSwapParameters p = none)
    (hverify : (verifyBalanceAndAllowance env "ETH" amt).1 = none)
    (hbuild : buildSucceeded (buildSwapTransaction env st.config
        (calculateSwapDetails "ETH" tokenOut amt
          (p.slippagePercent.getD st.config.maxSlippagePercent))) = true) :
    RpcCall.estimateGas ∈ (executeSwap env st p).trace := by
  unfold executeSwap
  simp only [hen, hstop, hIn, hOut, hAmt, hval, Bool.not_true, Bool.false_eq_true,
    if_false, ite_false]
  exact verifyOnwards_ok_has_estimateGas _ _ _ _ _ _ _ _ hverify hbuild

/-- C4 (witness): the amended theorem applied to the concrete 1 ETH request
on a fresh executor with the default 0.1 ETH limit. -/
theorem native_over_limit_reaches_simulation_witness :
    RpcCall.estimateGas
        ∈ (executeSwap mockEnv (freshExecutor defaultConfig true) oneEthParams).trace :=
  native_over_limit_reaches_simulation mockEnv (freshExecutor defaultConfig true) oneEthParams
    UNI_ADDRESS ⟨1, 0⟩ rfl rfl rfl
    (by norm_num [Dec.toRat, freshExecutor, defaultConfig]) rfl rfl
    (by decide) (by decide) (by decide)

/-- C5: a request submitted with `dryRun = true` never triggers
`sendTransaction`, whatever the executor state, the mocked chain responses,
and the outcome of validation, verification or simulation. -/
theorem dry_run_never_broadcasts (env : Env) (st : SwapExecutorState) (p : SwapParams)
    (h : p.dryRun = some true) :
    RpcCall.sendTransaction ∉ (executeSwap env st p).trace := by
  unfold executeSwap
  simp only [h, Option.getD_some]
  repeat' split
  all_goals first
  | (simp [failOutcome]; done)
  | exact verifyOnwards_dryRun_no_send _ _ _ _ _ _ _

/-- C5 (witness): the dry-run broadcast ban applied to the concrete valid
dry-run request on a fresh enabled executor. -/
theorem dry_run_never_broadcasts_witness :
    dryRunEthToUni.dryRun = some true ∧
    RpcCall.sendTransaction
        ∉ (executeSwap mockEnv (freshExecutor defaultConfig true) dryRunEthToUni).trace :=
  ⟨rfl, dry_run_never_broadcasts mockEnv (freshExecutor defaultConfig true) dryRunEthToUni rfl⟩

/-- C6: while the emergency stop is set, every `executeSwap` call on an
enabled executor fails with the emergency-stop error and issues no
collaborator call at all (no balance query, no simulation, no broadcast);
`resumeTrading` after `emergencyStop` restores the executor state exactly, so
an identical request then behaves exactly as on the never-stopped executor. -/
theorem emergency_stop_gates_pipeline (env : Env) (st : SwapExecutorState) (p : SwapParams)
    (hen : st.isEnabled = true) (hstop : st.config.emergencyStop = false) :
    ((executeSwap env (emergencyStop st) p).result.success = false ∧
     (executeSwap env (emergencyStop st) p).result.error
         = some SwapError.emergencyStopActive ∧
     (executeSwap env (emergencyStop st) p).trace = []) ∧
    resumeTrading (emergencyStop st) = st ∧
    executeSwap env (resumeTrading (emergencyStop st)) p = executeSwap env st p := by
  have hres : resumeTrading (emergencyStop st) = st := by
    cases st with
    | mk en cfg stats =>
      cases cfg
      simp_all [emergencyStop, resumeTrading]
  refine ⟨?_, hres, by rw [hres]⟩
  unfold executeSwap
  simp [emergencyStop, hen, failOutcome]

/-- C6 (witness): the emergency-stop gate applied to a fresh enabled executor
and the concrete valid request. -/
theorem emergency_stop_gates_pipeline_witness :
    (executeSwap mockEnv (emergencyStop (freshExecutor defaultConfig true))
        dryRunEthToUni).result.error = some SwapError.emergencyStopActive ∧
    executeSwap mockEnv (resumeTrading (emergencyStop (freshExecutor defaultConfig true)))
        dryRunEthToUni
      = executeSwap mockEnv (freshExecutor defaultConfig true) dryRunEthToUni := by
  have h := emergency_stop_gates_pipeline mockEnv (freshExecutor defaultConfig true)
    dryRunEthToUni rfl rfl
  exact ⟨h.1.2.1, h.2.2⟩

/-- C8 (counterexample): when `tokenIn` is the WETH token address itself (a
non-native asset), the built transaction's `value` is the full `amountIn` in
wei, not zero: the builder compares the *normalized* input token against the
WETH address (line 565), and a WETH `tokenIn` passes that comparison just
like the native sentinel does. -/
theorem weth_token_in_nonzero_value :
    WETH_ADDRESS ≠ "ETH" ∧ (10 : ℤ) ^ 18 ≠ 0 ∧
    txValueOf (buildSwapTransaction mockEnv defaultConfig
        (calculateSwapDetails WETH_ADDRESS UNI_ADDRESS ⟨1, 0⟩ ⟨0, 0⟩))
      = some (10 ^ 18) := by
  refine ⟨by decide, by decide, by decide⟩

/-- C8 (amended): the built transaction's `value` equals the parsed
`amountIn` exactly when the request's `tokenIn` is the native sentinel `ETH`
OR the WETH token address itself (both normalize to the WETH address), and is
zero for every other asset. -/
theorem tx_value_iff_normalized_weth (env : Env) (cfg : SwapConfig)
    (tokenIn tokenOut : String) (amt slip : Dec) (aIn : ℤ) (tx : SwapTransaction)
    (hparse : parseUnits amt 18 = some aIn)
    (hbuild : buildSwapTransaction env cfg (calculateSwapDetails tokenIn tokenOut amt slip)
        = Except.ok tx) :
    tx.value = if tokenIn == "ETH" || tokenIn == WETH_ADDRESS then aIn else 0 := by
  unfold buildSwapTransaction at hbuild
  split at hbuild
  · rename_i a aOut heq1 heq2
    split at hbuild
    · simp only [Except.ok.injEq] at hbuild
      subst hbuild
      have ha : a = aIn := by
        simp only [calculateSwapDetails] at heq1
        rw [hparse] at heq1
        exact (Option.some.inj heq1).symm
      subst ha
      simp only [calculateSwapDetails]
      by_cases hE : tokenIn == "ETH"
      · simp [hE]
      · simp [hE]
    · exact absurd hbuild (by simp)
  · exact absurd hbuild (by simp)

/-- The transaction built for the `ETH → UNI` demo request: both amounts are
`10 ^ 18` raw units and the full amount is attached as native value. -/
def c8EthTx : SwapTransaction where
  toAddress := UNISWAP_V3_ROUTER_ADDRESS
  tokenIn := WETH_ADDRESS
  tokenOut := UNI_ADDRESS
  fee := 3000
  recipient := "0x7E5F4552091A69125d5DfCb7b8C2659029395Bdf"
  deadline := 1700000600
  amountIn := 10 ^ 18
  amountOutMinimum := 10 ^ 18
  sqrtPriceLimitX96 := 0
  value := 10 ^ 18

/-- C8 (witness): the amended characterization applied to the concrete
native-asset request, whose built transaction carries `value = 10 ^ 18`. -/
theorem tx_value_iff_normalized_weth_witness : c8EthTx.value = 10 ^ 18 := by
  have h := tx_value_iff_normalized_weth mockEnv defaultConfig "ETH" UNI_ADDRESS
    ⟨1, 0⟩ ⟨0, 0⟩ (10 ^ 18) c8EthTx (by decide) rfl
  simpa using h

/-- C9 (counterexample): the pair `tokenIn = 'ETH'`, `tokenOut = WETH` passes
parameter validation (the same-token check compares the raw strings), yet
the transaction built afterwards has `tokenIn = tokenOut`: both legs
normalize to the WETH address. -/
theorem eth_to_weth_passes_validation_and_collides :
    validateSwapParameters ethToWethParams = none ∧
    txTokensOf (buildSwapTransaction mockEnv defaultConfig
        (calculateSwapDetails "ETH" WETH_ADDRESS ⟨1, 0⟩ ⟨1, 0⟩))
      = some (WETH_ADDRESS, WETH_ADDRESS) := by
  refine ⟨by decide, by decide⟩

/-- C9 (amended): validation does reject string-equal asset pairs, so the two
request strings of an accepted request always differ; but the normalized
token pair of the constructed swap coincides exactly when one side is the
native sentinel `ETH` and the other the WETH address — for that accepted
pair the built transaction swaps a token against itself. -/
theorem validation_blocks_equal_strings_but_normalization_collides
    (p : SwapParams) (tIn tOut : String) (amt slip : Dec)
    (hIn : p.tokenIn = some tIn) (hOut : p.tokenOut = some tOut)
    (hval : validateSwapParameters p = none) :
    tIn ≠ tOut ∧
    ((calculateSwapDetails tIn tOut amt slip).tokenInAddress
        = (calculateSwapDetails tIn tOut amt slip).tokenOutAddress
      ↔ ((tIn = "ETH" ∧ tOut = WETH_ADDRESS) ∨ (tIn = WETH_ADDRESS ∧ tOut = "ETH"))) := by
  obtain ⟨tIn', tOut', amt', hIn', hOut', hAmt'⟩ := validate_none_fields p hval
  have hne : tIn ≠ tOut := by
    intro he
    subst he
    unfold validateSwapParameters at hval
    rw [hIn, hOut, hAmt'] at hval
    repeat' split at hval <;> simp_all
  have hw : ("ETH" : String) ≠ WETH_ADDRESS := by decide
  refine ⟨hne, ?_⟩
  simp only [calculateSwapDetails]
  by_cases h1 : tIn = "ETH" <;> by_cases h2 : tOut = "ETH"
  · exact absurd (h1.trans h2.symm) hne
  · subst h1
    simp [h2, hw]
    first
    | exact eq_comm
    | rfl
  · subst h2
    simp [h1, hw]
  · simp [h1, h2, hne]

/-- C9 (witness): the amended theorem applied to the accepted
`ETH → WETH` request. -/
theorem validation_blocks_equal_strings_but_normalization_collides_witness :
    ("ETH" : String) ≠ WETH_ADDRESS ∧
    ((calculateSwapDetails "ETH" WETH_ADDRESS ⟨1, 0⟩ ⟨1, 0⟩).tokenInAddress
        = (calculateSwapDetails "ETH" WETH_ADDRESS ⟨1, 0⟩ ⟨1, 0⟩).tokenOutAddress
      ↔ ((("ETH" : String) = "ETH" ∧ WETH_ADDRESS = WETH_ADDRESS)
          ∨ (("ETH" : String) = WETH_ADDRESS ∧ WETH_ADDRESS = "ETH"))) :=
  validation_blocks_equal_strings_but_normalization_collides ethToWethParams "ETH"
    WETH_ADDRESS ⟨1, 0⟩ ⟨1, 0⟩ rfl rfl (by decide)

/-- C10: every failure result of `executeSwap` reports `dryRun = true`, even
when the submitted request had `dryRun = false`: the catch block computes the
field as `swapParams.dryRun || true`, which is `true` for every input. -/
theorem failure_results_report_dry_run_true (env : Env) (st : SwapExecutorState)
    (p : SwapParams) (h : (executeSwap env st p).result.success = false) :
    (executeSwap env st p).result.dryRun = true := by
  rcases executeSwap_result_form env st p with h1 | ⟨-, h2⟩
  · simp [h] at h1
  · rw [h2, catchBlockDryRun_eq_true]

/-- C10 (witness): a request with `dryRun = false` that fails (real trading
disabled) still gets `dryRun = true` in its failure result. -/
theorem failure_results_report_dry_run_true_witness :
    (executeSwap mockEnv (freshExecutor defaultConfig true) realRunParams).result.success
        = false ∧
    realRunParams.dryRun = some false ∧
    (executeSwap mockEnv (freshExecutor defaultConfig true) realRunParams).result.dryRun
        = true :=
  ⟨by decide, rfl,
    failure_results_report_dry_run_true mockEnv (freshExecutor defaultConfig true)
      realRunParams (by decide)⟩

end CryptoWalletTracker
